import Mathlib

/-!
Verification of the LLM-Powered-PDF-Extractor frontend and its
post-extraction scoring/ranking engine.

Shallow embedding conventions:
* JavaScript numbers are modelled as rationals (ℚ); byte counts and list
  lengths as naturals.
* `Math.round x` is modelled as `⌊x + 1/2⌋` (JavaScript rounds half toward
  positive infinity).
* TypeScript string-literal union types become Lean inductive types; the
  exact literal spellings are kept by the `toStr` functions.
* `Record<string, T>` objects keyed by file name are modelled as
  association lists `List (String × T)`.
* The backend ranking/comparison engine is not part of the available
  sources (only its TypeScript response types and UI consumers are); its
  operations are modelled from the specification and marked
  `Modelled from the spec:` in their doc comments.
-/

/-- JavaScript `Math.round`: round half toward positive infinity. -/
def jsRound (q : ℚ) : ℤ := ⌊q + 1/2⌋

/-! ## Data model (frontend/src/types/index.ts, resume-analyzer part) -/

/-- The `RecommendationType` string-literal union from the types file. -/
inductive RecommendationType
  | strong_hire
  | good_fit
  | potential_fit
  | needs_review
  | not_recommended
deriving DecidableEq, Repr

/-- The TypeScript string literal each `RecommendationType` value denotes. -/
def RecommendationType.toStr : RecommendationType → String
  | .strong_hire => "strong_hire"
  | .good_fit => "good_fit"
  | .potential_fit => "potential_fit"
  | .needs_review => "needs_review"
  | .not_recommended => "not_recommended"

/-- All values of `RecommendationType`, in declaration order. -/
def allRecommendationTypes : List RecommendationType :=
  [.strong_hire, .good_fit, .potential_fit, .needs_review, .not_recommended]

/-- The `RedFlagSeverity` string-literal union from the types file. -/
inductive RedFlagSeverity
  | high
  | medium
  | low
deriving DecidableEq, Repr

/-- The TypeScript string literal each `RedFlagSeverity` value denotes. -/
def RedFlagSeverity.toStr : RedFlagSeverity → String
  | .high => "high"
  | .medium => "medium"
  | .low => "low"

/-- All values of `RedFlagSeverity`, in declaration order. -/
def allRedFlagSeverities : List RedFlagSeverity := [.high, .medium, .low]

/-- The `RedFlagType` string-literal union from the types file. -/
inductive RedFlagType
  | short_tenure
  | employment_gap
  | overqualified
  | underqualified
  | frequent_job_changes
  | career_regression
  | overlapping_jobs
  | missing_recent_experience
  | no_progression
  | education_mismatch
  | skill_gaps
  | other
deriving DecidableEq, Repr

/-- The TypeScript string literal each `RedFlagType` value denotes. -/
def RedFlagType.toStr : RedFlagType → String
  | .short_tenure => "short_tenure"
  | .employment_gap => "employment_gap"
  | .overqualified => "overqualified"
  | .underqualified => "underqualified"
  | .frequent_job_changes => "frequent_job_changes"
  | .career_regression => "career_regression"
  | .overlapping_jobs => "overlapping_jobs"
  | .missing_recent_experience => "missing_recent_experience"
  | .no_progression => "no_progression"
  | .education_mismatch => "education_mismatch"
  | .skill_gaps => "skill_gaps"
  | .other => "other"

/-- All values of `RedFlagType`, in declaration order. -/
def allRedFlagTypes : List RedFlagType :=
  [.short_tenure, .employment_gap, .overqualified, .underqualified,
   .frequent_job_changes, .career_regression, .overlapping_jobs,
   .missing_recent_experience, .no_progression, .education_mismatch,
   .skill_gaps, .other]

/-- `RedFlag` record from the types file. -/
structure RedFlag where
  flag_type : RedFlagType
  severity : RedFlagSeverity
  title : String
  description : String
  evidence : Option String
  suggestion : Option String
deriving DecidableEq, Repr

/-- `StrengthItem` record from the types file. -/
structure StrengthItem where
  category : String
  title : String
  description : String
  relevance_score : ℚ
deriving DecidableEq, Repr

/-- `CareerProgression` record from the types file. -/
structure CareerProgression where
  trajectory : String
  avg_tenure_months : ℚ
  longest_tenure_months : ℚ
  total_companies : ℕ
  has_leadership_progression : Bool
  progression_summary : String
deriving DecidableEq, Repr

/-- `FitScoreBreakdown` record from the types file. -/
structure FitScoreBreakdown where
  skills_alignment : ℚ
  experience_match : ℚ
  education_fit : ℚ
  career_trajectory : ℚ
  cultural_signals : ℚ
deriving DecidableEq, Repr

/-- `CandidateFitResult` record from the types file. -/
structure CandidateFitResult where
  fit_score : ℚ
  fit_score_breakdown : Option FitScoreBreakdown
  recommendation : RecommendationType
  recommendation_text : String
  strengths : List StrengthItem
  weaknesses : List String
  red_flags : List RedFlag
  red_flag_count : ℕ
  has_critical_red_flags : Bool
  career_progression : Option CareerProgression
  executive_summary : String
  interview_questions : List String
  suggested_level : Option String
  analysis_confidence : ℚ
deriving DecidableEq, Repr

/-- An untyped JSON object (`Record<string, unknown>`), modelled as a list
of key/value pairs with stringified values. -/
def JsRecord : Type := List (String × String)

instance : DecidableEq JsRecord := by
  unfold JsRecord
  infer_instance

/-- `FullCandidateAnalysis` record from the types file. -/
structure FullCandidateAnalysis where
  success : Bool
  candidate_name : Option String
  candidate_email : Option String
  candidate_current_role : Option String
  candidate_experience_years : Option ℚ
  job_title : Option String
  company_name : Option String
  overall_score : ℚ
  ats_score : ℚ
  matched_skills : List String
  missing_skills : List String
  fit_analysis : Option CandidateFitResult
  resume_data : JsRecord
  jd_data : JsRecord
  processing_time_ms : ℚ
  error : Option String
deriving DecidableEq

/-- `CandidateRankingScore` record from the types file. -/
structure CandidateRankingScore where
  rank : ℕ
  file_name : String
  candidate_name : Option String
  overall_score : ℚ
  ats_score : ℚ
  fit_score : ℚ
  recommendation : RecommendationType
  strengths_count : ℕ
  red_flags_count : ℕ
  has_critical_red_flags : Bool
  suggested_level : Option String
  executive_summary : Option String
deriving DecidableEq

/-- `CandidateComparison` record from the types file. -/
structure CandidateComparison where
  file_name_1 : String
  file_name_2 : String
  overall_score_1 : ℚ
  overall_score_2 : ℚ
  overall_score_diff : ℚ
  ats_score_1 : ℚ
  ats_score_2 : ℚ
  fit_score_1 : ℚ
  fit_score_2 : ℚ
  matched_skills_1 : List String
  matched_skills_2 : List String
  unique_skills_1 : List String
  unique_skills_2 : List String
  common_skills : List String
  red_flags_1 : ℕ
  red_flags_2 : ℕ
  critical_flags_1 : Bool
  critical_flags_2 : Bool
  recommendation_1 : RecommendationType
  recommendation_2 : RecommendationType
  winner : ℕ
  winner_reason : String
deriving DecidableEq

/-- The spec's §4.7 score-distribution buckets
(`score_distribution : Record<string, number>` in the types file, with the
four bucket keys excellent/good/fair/poor). -/
structure ScoreDistribution where
  excellent : ℕ
  good : ℕ
  fair : ℕ
  poor : ℕ
deriving DecidableEq

/-- `RankingResult` record from the types file. -/
structure RankingResult where
  success : Bool
  job_title : Option String
  company_name : Option String
  total_candidates : ℕ
  rankings : List CandidateRankingScore
  top_candidate : Option CandidateRankingScore
  top_candidate_analysis : Option FullCandidateAnalysis
  all_analyses : List (String × FullCandidateAnalysis)
  score_distribution : ScoreDistribution
  average_score : ℚ
  hiring_recommendation : String
  processing_time_ms : ℚ
  error : Option String
deriving DecidableEq

/-! ## ConfidenceIndicator (frontend/src/components/ConfidenceIndicator.tsx,
and the identical copy bundled with ErrorBoundary.tsx) -/

namespace ConfidenceIndicator

/-- The `getLabel` closure of the `ConfidenceIndicator` component: maps a
confidence score to the badge label shown when `showPercentage` is off. -/
def getLabel (score : ℚ) : String :=
  if score ≥ 0.8 then "High"
  else if score ≥ 0.5 then "Medium"
  else "Low"

/-- The `getColor` closure of the `ConfidenceIndicator` component. -/
def getColor (score : ℚ) : String :=
  if score ≥ 0.8 then "text-green-600 bg-green-100"
  else if score ≥ 0.5 then "text-amber-600 bg-amber-100"
  else "text-red-600 bg-red-100"

end ConfidenceIndicator

/-- A JavaScript value reaching `safeScore` (typed `unknown` in the source).
`parseFloat` is treated as an oracle: `strNum x` is a string that
`parseFloat` turns into the finite number `x`, `strNaN` is a string it
turns into `NaN`. Finite numbers are modelled as rationals. -/
inductive JsValue
  | num (x : ℚ)
  | nan
  | strNum (x : ℚ)
  | strNaN
  | nullV
  | undefV
deriving DecidableEq, Repr

/-- The module-level `safeScore` helper in the ConfidenceIndicator copy
bundled with ErrorBoundary.tsx: `undefined`/`null` map to 0, other inputs
go through `parseFloat` when not already numbers, `NaN` maps to 0, and the
result is clamped to the interval from 0 to 1. -/
def safeScore : JsValue → ℚ
  | .nullV => 0
  | .undefV => 0
  | .num x => max 0 (min 1 x)
  | .nan => 0
  | .strNum x => max 0 (min 1 x)
  | .strNaN => 0

/-- The percentage the component derives from a score:
`Math.round(score * 100)`. -/
def scorePercentage (v : JsValue) : ℤ := jsRound (safeScore v * 100)

/-! ## ScoreRing (frontend/src/components/ProgressBar.tsx,
RankingResultsPanel part) -/

namespace COLORS

/-- The `COLORS.primary` constant of RankingResultsPanel. -/
def primary : String := "#0EA5E9"

/-- The `COLORS.warning` constant of RankingResultsPanel. -/
def warning : String := "#F59E0B"

/-- The `COLORS.danger` constant of RankingResultsPanel. -/
def danger : String := "#EF4444"

/-- The `COLORS.success` constant of RankingResultsPanel. -/
def success : String := "#10B981"

end COLORS

namespace ScoreRing

/-- The `getColor` closure of the `ScoreRing` component in
RankingResultsPanel. -/
def getColor (s : ℚ) : String :=
  if s ≥ 90 then COLORS.success
  else if s ≥ 70 then COLORS.primary
  else if s ≥ 50 then COLORS.warning
  else COLORS.danger

end ScoreRing

/-! ## services/api.ts upload-progress callbacks -/

namespace api

/-- The value `extractFromPdf` delivers to `options.onProgress` for an
upload progress event with `loaded` bytes sent out of `total`:
`Math.min(Math.round(loaded * 100 / total), 50)`. Only invoked when
`progressEvent.total` is present and nonzero (JavaScript truthiness). -/
def extractFromPdfProgressValue (loaded total : ℕ) : ℤ :=
  min (jsRound ((loaded * 100 : ℚ) / (total : ℚ))) 50

/-- The value `extractFromPdfBatch` delivers to `options.onProgress`;
the source duplicates the `extractFromPdf` callback body verbatim. -/
def extractFromPdfBatchProgressValue (loaded total : ℕ) : ℤ :=
  min (jsRound ((loaded * 100 : ℚ) / (total : ℚ))) 50

end api

/-- A JavaScript `File` object as far as the upload components inspect it:
a name and a size in bytes. -/
structure JsFile where
  name : String
  size : ℕ
deriving DecidableEq, Repr

/-! ## MultiUploadZone (unnamed source part, MultiUploadZone component) -/

namespace MultiUploadZone

/-- The props of `MultiUploadZone` that `handleFiles` reads, with their
default values in `defaultConfig`. -/
structure Config where
  maxSizeMb : ℚ
  maxFiles : ℕ
  acceptedFormats : List String
deriving DecidableEq

/-- The component's default prop values. -/
def defaultConfig : Config :=
  { maxSizeMb := 50, maxFiles := 5, acceptedFormats := [".pdf"] }

/-- The extension string `validateFile` computes:
a dot followed by the lowercased last dot-separated chunk of the name. -/
def fileExt (name : String) : String :=
  "." ++ ((name.splitOn ".").getLast?.getD "").toLower

/-- The `validateFile` closure: `none` means the file passed, `some msg`
is the error message recorded for the first failing check. -/
def validateFile (cfg : Config) (f : JsFile) : Option String :=
  if (cfg.acceptedFormats.contains (fileExt f.name)) = false then
    some ("Invalid file type: " ++ f.name ++ ". Only PDF files accepted.")
  else if (f.size : ℚ) / (1024 * 1024) > cfg.maxSizeMb then
    some ("File too large: " ++ f.name ++ ". Maximum size: " ++
      toString cfg.maxSizeMb ++ "MB")
  else
    none

/-- The component state `handleFiles` updates: the `error` and
`selectedFiles` pieces of React state. -/
structure State where
  error : Option String
  selectedFiles : List JsFile
deriving DecidableEq

/-- The first validation error over the submitted files, mirroring the
early-returning `for` loop in `handleFiles`. -/
def firstValidationError (cfg : Config) : List JsFile → Option String
  | [] => none
  | f :: fs =>
    match validateFile cfg f with
    | some e => some e
    | none => firstValidationError cfg fs

/-- The `handleFiles` closure: validates the submitted list, updates the
component state, and reports (second component) whether the
`onFilesSelect` callback was invoked (always with the full validated
list). -/
def handleFiles (cfg : Config) (st : State) (files : List JsFile) :
    State × Bool :=
  if files.length > cfg.maxFiles then
    ({ st with
        error := some ("Too many files. Maximum " ++ toString cfg.maxFiles ++
          " files allowed.") },
      false)
  else
    match firstValidationError cfg files with
    | some e => ({ st with error := some e }, false)
    | none => ({ error := none, selectedFiles := files }, true)

end MultiUploadZone

/-! ## ResumeAnalyzer (frontend/src/components/ResumeAnalyzer.tsx) -/

namespace ResumeAnalyzer

/-- The PDF filter both `handleFilesSelect` and `handleDrop` apply:
`f.name.toLowerCase().endsWith('.pdf')`. -/
def isPdfName (f : JsFile) : Bool :=
  (f.name.toLower).endsWith ".pdf"

/-- The file-list update shared by `handleFilesSelect` and `handleDrop`:
keep only PDF names and, when any survive, append them to the previous
list and truncate to the first 10 entries (`.slice(0, 10)`). -/
def addFiles (prev incoming : List JsFile) : List JsFile :=
  let pdfFiles := incoming.filter isPdfName
  if 0 < pdfFiles.length then (prev ++ pdfFiles).take 10 else prev

/-- The user events that change `state.resumeFiles`: choosing files in the
file input, dropping files on the drop zone, removing one entry by index,
and the reset performed by `handleReset` (also used by the back button).
Only the `resumeFiles` component of the React state is modelled; the other
state fields never feed back into the file list. -/
inductive Event
  | filesSelect (files : List JsFile)
  | drop (files : List JsFile)
  | removeFile (index : ℕ)
  | reset
deriving DecidableEq, Repr

/-- One state transition of `state.resumeFiles` under an event.
`removeFile` models `filter((_, i) => i !== index)`, which is `eraseIdx`. -/
def step (files : List JsFile) : Event → List JsFile
  | .filesSelect fs => addFiles files fs
  | .drop fs => addFiles files fs
  | .removeFile i => files.eraseIdx i
  | .reset => []

/-- The `resumeFiles` list after a sequence of events, starting from the
initial state (empty list). -/
def resumeFilesAfter (events : List Event) : List JsFile :=
  events.foldl step []

end ResumeAnalyzer

/-! ## RankingEngine (spec §4.7) — the backend engine behind
`rank(job_description, resumes[])`. Its implementation is not among the
available sources (only its response types and the UI consumer are), so it
is modelled from the specification. -/

namespace RankingEngine

/-- Modelled from the spec: the §4.7 before-or-equal ordering of ranking
entries, for the missing backend RankingEngine sort — `overall_score`
descending, ties by `fit_score` descending, then `ats_score` descending,
then `file_name` ascending (lexicographic). `rankRel a b` holds when `a`
may come before `b`. -/
def rankRel (a b : CandidateRankingScore) : Prop :=
  b.overall_score < a.overall_score ∨
    (a.overall_score = b.overall_score ∧
      (b.fit_score < a.fit_score ∨
        (a.fit_score = b.fit_score ∧
          (b.ats_score < a.ats_score ∨
            (a.ats_score = b.ats_score ∧ a.file_name ≤ b.file_name)))))

/-- The sort key realizing `rankRel` as a lexicographic order (descending
components negated). -/
def rankKey (a : CandidateRankingScore) : ℚ ×ₗ (ℚ ×ₗ (ℚ ×ₗ String)) :=
  toLex (-a.overall_score,
    toLex (-a.fit_score, toLex (-a.ats_score, a.file_name)))

instance : DecidableRel rankRel := fun a b => by
  unfold rankRel
  infer_instance

/-- Modelled from the spec: the projection of a `FullCandidateAnalysis`
into the compact `CandidateRankingScore` used for ordering (§3); the
fit-analysis-derived fields default to zero/empty when `fit_analysis` is
absent. The `rank` field is assigned after sorting. -/
def toRankingScore (file_name : String) (a : FullCandidateAnalysis) :
    CandidateRankingScore :=
  { rank := 0
    file_name := file_name
    candidate_name := a.candidate_name
    overall_score := a.overall_score
    ats_score := a.ats_score
    fit_score := (a.fit_analysis.map CandidateFitResult.fit_score).getD 0
    recommendation :=
      (a.fit_analysis.map CandidateFitResult.recommendation).getD
        RecommendationType.needs_review
    strengths_count :=
      (a.fit_analysis.map (fun f => f.strengths.length)).getD 0
    red_flags_count :=
      (a.fit_analysis.map CandidateFitResult.red_flag_count).getD 0
    has_critical_red_flags :=
      (a.fit_analysis.map CandidateFitResult.has_critical_red_flags).getD false
    suggested_level := a.fit_analysis.bind CandidateFitResult.suggested_level
    executive_summary :=
      a.fit_analysis.map CandidateFitResult.executive_summary }

/-- Modelled from the spec: positional `rank` numbers (1-based) assigned
to the sorted list. -/
def assignRanks : ℕ → List CandidateRankingScore → List CandidateRankingScore
  | _, [] => []
  | n, c :: cs => { c with rank := n } :: assignRanks (n + 1) cs

/-- Modelled from the spec: the §4.7 `score_distribution` bucketing of
successful analyses by `overall_score` — excellent at least 90, good in
[70, 90), fair in [50, 70), poor below 50. -/
def bucketCounts (scores : List ℚ) : ScoreDistribution :=
  { excellent := (scores.filter (fun s => decide (90 ≤ s))).length
    good := (scores.filter (fun s => decide (70 ≤ s ∧ s < 90))).length
    fair := (scores.filter (fun s => decide (50 ≤ s ∧ s < 70))).length
    poor := (scores.filter (fun s => decide (s < 50))).length }

/-- Modelled from the spec: mean `overall_score` over successful analyses,
zero for an empty list. -/
def averageScore (scores : List ℚ) : ℚ :=
  if scores.length = 0 then 0 else scores.sum / scores.length

/-- Modelled from the spec: the templated §4.7 hiring-recommendation text
chosen from the score distribution. -/
def hiringRecommendation (d : ScoreDistribution) : String :=
  if 1 ≤ d.excellent + d.good then
    "STRONG — " ++ toString (d.excellent + d.good) ++ " candidates meet the bar"
  else if 1 ≤ d.fair then "ACCEPTABLE — review top candidates"
  else "WEAK — no qualified candidates"

/-- Modelled from the spec: the missing backend `rank` entry point (§4.7).
Input: one fully analysed candidate per input file, keyed by file name
(failed analyses included, with `success := false`). The batch-level
result always has `success := true`; `rankings` holds only successful
analyses, sorted by `rankRel`; `all_analyses` keeps one entry per input
file. `processing_time_ms` belongs to the transport layer and is fixed
at 0. -/
def rank (job_title company_name : Option String)
    (analyses : List (String × FullCandidateAnalysis)) : RankingResult :=
  let successes := analyses.filter (fun p => p.2.success)
  let scores := successes.map (fun p => toRankingScore p.1 p.2)
  let rankings := assignRanks 1 (List.insertionSort rankRel scores)
  let dist := bucketCounts (successes.map (fun p => p.2.overall_score))
  { success := true
    job_title := job_title
    company_name := company_name
    total_candidates := analyses.length
    rankings := rankings
    top_candidate := rankings.head?
    top_candidate_analysis :=
      rankings.head?.bind (fun c =>
        (analyses.find? (fun p => p.1 == c.file_name)).map Prod.snd)
    all_analyses := analyses
    score_distribution := dist
    average_score := averageScore (successes.map (fun p => p.2.overall_score))
    hiring_recommendation := hiringRecommendation dist
    processing_time_ms := 0
    error := none }

end RankingEngine

/-! ## ComparisonEngine (spec §4.8) — the backend engine behind
`compare(analysis_a, analysis_b)`, likewise modelled from the
specification. -/

namespace ComparisonEngine

/-- The red-flag count of an analysis, zero when `fit_analysis` is absent. -/
def redFlagsCountOf (a : FullCandidateAnalysis) : ℕ :=
  (a.fit_analysis.map CandidateFitResult.red_flag_count).getD 0

/-- The critical-flag indicator of an analysis. -/
def criticalFlagsOf (a : FullCandidateAnalysis) : Bool :=
  (a.fit_analysis.map CandidateFitResult.has_critical_red_flags).getD false

/-- The recommendation of an analysis, `needs_review` when absent. -/
def recommendationOf (a : FullCandidateAnalysis) : RecommendationType :=
  (a.fit_analysis.map CandidateFitResult.recommendation).getD
    RecommendationType.needs_review

/-- The fit score of an analysis, zero when `fit_analysis` is absent. -/
def fitScoreOf (a : FullCandidateAnalysis) : ℚ :=
  (a.fit_analysis.map CandidateFitResult.fit_score).getD 0

/-- Modelled from the spec: the missing backend `compare` entry point
(§4.8). Fails with an incomparable error when either input's `success` is
false; otherwise the winner has the higher `overall_score`, an exact tie
goes to the candidate with fewer red flags, and a further tie yields
`winner = 1` with the tie-break reason. -/
def compareCandidates (fn1 fn2 : String) (a1 a2 : FullCandidateAnalysis) :
    Except String CandidateComparison :=
  if a1.success = false ∨ a2.success = false then
    Except.error "incomparable: both inputs must be successful analyses"
  else
    let flags1 := redFlagsCountOf a1
    let flags2 := redFlagsCountOf a2
    let wr : ℕ × String :=
      if a2.overall_score < a1.overall_score then (1, "higher overall score")
      else if a1.overall_score < a2.overall_score then (2, "higher overall score")
      else if flags1 < flags2 then (1, "fewer red flags")
      else if flags2 < flags1 then (2, "fewer red flags")
      else (1, "tie-break: first candidate")
    Except.ok
      { file_name_1 := fn1
        file_name_2 := fn2
        overall_score_1 := a1.overall_score
        overall_score_2 := a2.overall_score
        overall_score_diff := a1.overall_score - a2.overall_score
        ats_score_1 := a1.ats_score
        ats_score_2 := a2.ats_score
        fit_score_1 := fitScoreOf a1
        fit_score_2 := fitScoreOf a2
        matched_skills_1 := a1.matched_skills
        matched_skills_2 := a2.matched_skills
        unique_skills_1 :=
          a1.matched_skills.filter (fun s => !(a2.matched_skills.contains s))
        unique_skills_2 :=
          a2.matched_skills.filter (fun s => !(a1.matched_skills.contains s))
        common_skills :=
          a1.matched_skills.filter (fun s => a2.matched_skills.contains s)
        red_flags_1 := flags1
        red_flags_2 := flags2
        critical_flags_1 := criticalFlagsOf a1
        critical_flags_2 := criticalFlagsOf a2
        recommendation_1 := recommendationOf a1
        recommendation_2 := recommendationOf a2
        winner := wr.1
        winner_reason := wr.2 }

end ComparisonEngine

/-- A concrete successful analysis used to evaluate the batch and
comparison operations at a specific input. -/
def sampleSuccessAnalysis : FullCandidateAnalysis :=
  { success := true
    candidate_name := some "Ada"
    candidate_email := none
    candidate_current_role := none
    candidate_experience_years := some 5
    job_title := some "Senior Data Scientist"
    company_name := none
    overall_score := 82
    ats_score := 80
    matched_skills := ["python", "sql"]
    missing_skills := ["spark"]
    fit_analysis := none
    resume_data := ([] : List (String × String))
    jd_data := ([] : List (String × String))
    processing_time_ms := 120
    error := none }

/-- A concrete failed analysis used to evaluate the batch operation at a
specific input. -/
def sampleFailedAnalysis : FullCandidateAnalysis :=
  { success := false
    candidate_name := none
    candidate_email := none
    candidate_current_role := none
    candidate_experience_years := none
    job_title := none
    company_name := none
    overall_score := 0
    ats_score := 0
    matched_skills := []
    missing_skills := []
    fit_analysis := none
    resume_data := ([] : List (String × String))
    jd_data := ([] : List (String × String))
    processing_time_ms := 3
    error := some "parse failure" }

/-! ## Helper lemmas -/

theorem jsRound_nonneg {q : ℚ} (h0 : 0 ≤ q) : 0 ≤ jsRound q :=
  Int.le_floor.mpr (by push_cast; linarith)

theorem jsRound_le_of_le {q : ℚ} {n : ℤ} (h : q ≤ n) : jsRound q ≤ n := by
  have hlt : ⌊q + 1/2⌋ < n + 1 := Int.floor_lt.mpr (by push_cast; linarith)
  unfold jsRound
  omega

namespace RankingEngine

theorem rankRel_iff_rankKey_le (a b : CandidateRankingScore) :
    rankRel a b ↔ rankKey a ≤ rankKey b := by
  unfold rankRel rankKey
  simp only [Prod.Lex.le_iff, neg_lt_neg_iff, neg_inj]

instance : IsTotal CandidateRankingScore rankRel :=
  ⟨fun a b => by
    rw [rankRel_iff_rankKey_le, rankRel_iff_rankKey_le]
    exact le_total _ _⟩

instance : IsTrans CandidateRankingScore rankRel :=
  ⟨fun a b c hab hbc => by
    rw [rankRel_iff_rankKey_le] at hab hbc ⊢
    exact le_trans hab hbc⟩

theorem rankRel_set_rank {a b : CandidateRankingScore} (n m : ℕ)
    (h : rankRel a b) : rankRel { a with rank := n } { b with rank := m } := h

theorem mem_assignRanks {c : CandidateRankingScore} :
    ∀ {n : ℕ} {l : List CandidateRankingScore}, c ∈ assignRanks n l →
      ∃ d ∈ l, ∃ m : ℕ, c = { d with rank := m } := by
  intro n l
  induction l generalizing n with
  | nil => intro h; cases h
  | cons d l ih =>
    intro h
    rcases List.mem_cons.mp h with h | h
    · exact ⟨d, List.mem_cons_self d l, n, h⟩
    · obtain ⟨d', hd', m, hm⟩ := ih h
      exact ⟨d', List.mem_cons_of_mem d hd', m, hm⟩

theorem pairwise_assignRanks :
    ∀ (n : ℕ) {l : List CandidateRankingScore}, l.Pairwise rankRel →
      (assignRanks n l).Pairwise rankRel := by
  intro n l
  induction l generalizing n with
  | nil => intro _; exact List.Pairwise.nil
  | cons d l ih =>
    intro h
    rcases List.pairwise_cons.mp h with ⟨hd, hl⟩
    refine List.pairwise_cons.mpr ⟨?_, ih (n + 1) hl⟩
    intro c hc
    obtain ⟨d', hd', m, hm⟩ := mem_assignRanks hc
    rw [hm]
    exact rankRel_set_rank n m (hd d' hd')

theorem assignRanks_length (n : ℕ) (l : List CandidateRankingScore) :
    (assignRanks n l).length = l.length := by
  induction l generalizing n with
  | nil => rfl
  | cons d l ih => simpa [assignRanks] using ih (n + 1)

end RankingEngine

/-! ## Claim theorems -/

/-- C2: the enum-like fields of the data model are closed unions matching
the spec exactly — `RecommendationType` has exactly the five recommendation
values, `RedFlagSeverity` is exactly high/medium/low, and `RedFlagType` is
exactly the eleven listed flag kinds plus `other`; the string denotations
are pairwise distinct and every value is one of the listed ones, so no
other string is a value of these types. -/
theorem enum_unions_closed :
    (∀ r : RecommendationType, r ∈ allRecommendationTypes) ∧
    allRecommendationTypes.map RecommendationType.toStr =
      ["strong_hire", "good_fit", "potential_fit", "needs_review",
       "not_recommended"] ∧
    (allRecommendationTypes.map RecommendationType.toStr).Nodup ∧
    (∀ s : RedFlagSeverity, s ∈ allRedFlagSeverities) ∧
    allRedFlagSeverities.map RedFlagSeverity.toStr = ["high", "medium", "low"] ∧
    (allRedFlagSeverities.map RedFlagSeverity.toStr).Nodup ∧
    (∀ t : RedFlagType, t ∈ allRedFlagTypes) ∧
    allRedFlagTypes.map RedFlagType.toStr =
      ["short_tenure", "employment_gap", "overqualified", "underqualified",
       "frequent_job_changes", "career_regression", "overlapping_jobs",
       "missing_recent_experience", "no_progression", "education_mismatch",
       "skill_gaps", "other"] ∧
    (allRedFlagTypes.map RedFlagType.toStr).Nodup ∧
    allRedFlagTypes.length = 11 + 1 := by
  refine ⟨?_, rfl, by decide, ?_, rfl, by decide, ?_, rfl, by decide, rfl⟩
  · intro r; cases r <;> simp [allRecommendationTypes]
  · intro s; cases s <;> simp [allRedFlagSeverities]
  · intro t; cases t <;> simp [allRedFlagTypes]

/-- C3 counterexample: at score 0 — which is in the claimed domain [0,1] —
the confidence label produced by `ConfidenceIndicator.getLabel` is the low
label `"Low"`, not an unknown label, contradicting the claim that the low
label appears only for 0 < score < 0.5 and that score 0 is labelled
unknown. -/
theorem confidence_label_zero_counterexample :
    ConfidenceIndicator.getLabel 0 = "Low" ∧
    ConfidenceIndicator.getLabel 0 ≠ "unknown" ∧
    ConfidenceIndicator.getLabel 0 ≠ "Unknown" := by
  have h : ConfidenceIndicator.getLabel 0 = "Low" := by
    norm_num [ConfidenceIndicator.getLabel]
  refine ⟨h, ?_, ?_⟩ <;> rw [h] <;> decide

/-- C3 (amended): for every score in [0,1] the confidence label follows the
code's fixed breakpoints — high iff score ≥ 0.8, medium iff
0.5 ≤ score < 0.8, and low iff score < 0.5 (score 0 included); the label
function has no unknown case. -/
theorem confidence_label_breakpoints (s : ℚ) (_h0 : 0 ≤ s) (_h1 : s ≤ 1) :
    (ConfidenceIndicator.getLabel s = "High" ↔ 0.8 ≤ s) ∧
    (ConfidenceIndicator.getLabel s = "Medium" ↔ 0.5 ≤ s ∧ s < 0.8) ∧
    (ConfidenceIndicator.getLabel s = "Low" ↔ s < 0.5) := by
  unfold ConfidenceIndicator.getLabel
  split_ifs with ha hb
  · refine ⟨iff_of_true rfl ha, iff_of_false (by decide) ?_,
      iff_of_false (by decide) ?_⟩
    · rintro ⟨-, h⟩; exact absurd ha (not_le.mpr h)
    · intro h; exact absurd ha (not_le.mpr (by linarith))
  · push_neg at ha
    refine ⟨iff_of_false (by decide) ?_, iff_of_true rfl ⟨hb, ha⟩,
      iff_of_false (by decide) ?_⟩
    · intro h; linarith
    · intro h; linarith
  · push_neg at ha hb
    refine ⟨iff_of_false (by decide) ?_, iff_of_false (by decide) ?_,
      iff_of_true rfl hb⟩
    · intro h; linarith
    · rintro ⟨h, -⟩; linarith

/-- C3 witness: the amended breakpoint characterization evaluated at the
concrete score 0.6. -/
theorem confidence_label_breakpoints_witness :
    (ConfidenceIndicator.getLabel 0.6 = "High" ↔ (0.8 : ℚ) ≤ 0.6) ∧
    (ConfidenceIndicator.getLabel 0.6 = "Medium" ↔
      (0.5 : ℚ) ≤ 0.6 ∧ (0.6 : ℚ) < 0.8) ∧
    (ConfidenceIndicator.getLabel 0.6 = "Low" ↔ (0.6 : ℚ) < 0.5) :=
  confidence_label_breakpoints 0.6 (by norm_num) (by norm_num)

/-- C7: the `ScoreRing` color classification partitions scores exactly at
the spec's bucket edges — the excellent color (`COLORS.success`) iff the
score is at least 90, the good color (`COLORS.primary`) iff it is in
[70, 90), the fair color (`COLORS.warning`) iff it is in [50, 70), and the
poor color (`COLORS.danger`) iff it is below 50. -/
theorem scoreRing_color_buckets (s : ℚ) :
    (ScoreRing.getColor s = COLORS.success ↔ 90 ≤ s) ∧
    (ScoreRing.getColor s = COLORS.primary ↔ 70 ≤ s ∧ s < 90) ∧
    (ScoreRing.getColor s = COLORS.warning ↔ 50 ≤ s ∧ s < 70) ∧
    (ScoreRing.getColor s = COLORS.danger ↔ s < 50) := by
  unfold ScoreRing.getColor
  split_ifs with h90 h70 h50
  · refine ⟨iff_of_true rfl h90, iff_of_false (by decide) ?_,
      iff_of_false (by decide) ?_, iff_of_false (by decide) ?_⟩
    · rintro ⟨-, h⟩; linarith
    · rintro ⟨-, h⟩; linarith
    · intro h; linarith
  · push_neg at h90
    refine ⟨iff_of_false (by decide) ?_, iff_of_true rfl ⟨h70, h90⟩,
      iff_of_false (by decide) ?_, iff_of_false (by decide) ?_⟩
    · intro h; linarith
    · rintro ⟨-, h⟩; linarith
    · intro h; linarith
  · push_neg at h90 h70
    refine ⟨iff_of_false (by decide) ?_, iff_of_false (by decide) ?_,
      iff_of_true rfl ⟨h50, h70⟩, iff_of_false (by decide) ?_⟩
    · intro h; linarith
    · rintro ⟨h, -⟩; linarith
    · intro h; linarith
  · push_neg at h90 h70 h50
    refine ⟨iff_of_false (by decide) ?_, iff_of_false (by decide) ?_,
      iff_of_false (by decide) ?_, iff_of_true rfl h50⟩
    · intro h; linarith
    · rintro ⟨h, -⟩; linarith
    · rintro ⟨h, -⟩; linarith

/-- C8: `safeScore` always returns a number in [0, 1] — null, undefined,
`NaN` and unparseable strings map to 0, numeric inputs (direct or parsed
from strings) are clamped to [0, 1] — and the percentage the component
displays, `Math.round(score * 100)`, always lies in [0, 100]. -/
theorem safeScore_range :
    (∀ v : JsValue,
      0 ≤ safeScore v ∧ safeScore v ≤ 1 ∧
      0 ≤ scorePercentage v ∧ scorePercentage v ≤ 100) ∧
    (∀ x : ℚ, safeScore (JsValue.num x) = max 0 (min 1 x) ∧
      safeScore (JsValue.strNum x) = max 0 (min 1 x)) ∧
    safeScore JsValue.nan = 0 ∧
    safeScore JsValue.strNaN = 0 ∧
    safeScore JsValue.nullV = 0 ∧
    safeScore JsValue.undefV = 0 := by
  refine ⟨fun v => ?_, fun x => ⟨rfl, rfl⟩, rfl, rfl, rfl, rfl⟩
  have h0 : 0 ≤ safeScore v := by
    cases v with
    | num x => exact le_max_left 0 _
    | strNum x => exact le_max_left 0 _
    | nan => exact le_refl 0
    | strNaN => exact le_refl 0
    | nullV => exact le_refl 0
    | undefV => exact le_refl 0
  have h1 : safeScore v ≤ 1 := by
    cases v with
    | num x => exact max_le (by norm_num) (min_le_left 1 x)
    | strNum x => exact max_le (by norm_num) (min_le_left 1 x)
    | nan => norm_num [safeScore]
    | strNaN => norm_num [safeScore]
    | nullV => norm_num [safeScore]
    | undefV => norm_num [safeScore]
  refine ⟨h0, h1, jsRound_nonneg (by positivity), ?_⟩
  exact jsRound_le_of_le (by push_cast; linarith)

/-- C10: every progress value the upload callbacks of `extractFromPdf` and
`extractFromPdfBatch` deliver to `onProgress` is an integer between 0 and
50 inclusive, given the guard that the event's `total` is present and
nonzero. -/
theorem upload_progress_bounds (loaded total : ℕ) (h : 0 < total) :
    (0 ≤ api.extractFromPdfProgressValue loaded total ∧
      api.extractFromPdfProgressValue loaded total ≤ 50) ∧
    (0 ≤ api.extractFromPdfBatchProgressValue loaded total ∧
      api.extractFromPdfBatchProgressValue loaded total ≤ 50) := by
  have hq : (0 : ℚ) ≤ (loaded * 100 : ℚ) / (total : ℚ) := by positivity
  constructor <;>
    exact ⟨le_min (jsRound_nonneg hq) (by norm_num), min_le_right _ 50⟩

/-- C10 witness: the progress bounds evaluated at the concrete upload event
with 3 of 7 bytes sent. -/
theorem upload_progress_bounds_witness :
    (0 ≤ api.extractFromPdfProgressValue 3 7 ∧
      api.extractFromPdfProgressValue 3 7 ≤ 50) ∧
    (0 ≤ api.extractFromPdfBatchProgressValue 3 7 ∧
      api.extractFromPdfBatchProgressValue 3 7 ≤ 50) :=
  upload_progress_bounds 3 7 (by decide)

/-- Helper for C6: one `addFiles` update keeps the resume list within the
10-file cap. -/
theorem addFiles_length_le (prev incoming : List JsFile)
    (h : prev.length ≤ 10) :
    (ResumeAnalyzer.addFiles prev incoming).length ≤ 10 := by
  by_cases hp : 0 < (incoming.filter ResumeAnalyzer.isPdfName).length
  · simp only [ResumeAnalyzer.addFiles, if_pos hp, List.length_take]
    omega
  · simpa only [ResumeAnalyzer.addFiles, if_neg hp] using h

/-- Helper for C6: every single event preserves the 10-file cap. -/
theorem step_length_le (files : List JsFile) (e : ResumeAnalyzer.Event)
    (h : files.length ≤ 10) :
    (ResumeAnalyzer.step files e).length ≤ 10 := by
  cases e with
  | filesSelect fs => exact addFiles_length_le files fs h
  | drop fs => exact addFiles_length_le files fs h
  | removeFile i =>
    exact le_trans (List.Sublist.length_le (List.eraseIdx_sublist files i)) h
  | reset => simp [ResumeAnalyzer.step]

/-- C6: after every sequence of file-selection, drag-and-drop, removal and
reset events in the resume-analyzer UI, the list of selected resume files
contains at most 10 entries (selected files beyond the cap are dropped by
`.slice(0, 10)`), so a rank request — which sends `state.resumeFiles` — is
never issued with more than 10 resumes. -/
theorem resume_files_capped_at_ten (events : List ResumeAnalyzer.Event) :
    (ResumeAnalyzer.resumeFilesAfter events).length ≤ 10 := by
  suffices h : ∀ (fs : List JsFile), fs.length ≤ 10 →
      (events.foldl ResumeAnalyzer.step fs).length ≤ 10 by
    exact h [] (by simp)
  induction events with
  | nil => intro fs h; simpa using h
  | cons e es ih =>
    intro fs h
    exact ih (ResumeAnalyzer.step fs e) (step_length_le fs e h)

/-- Helper for C9: passing validation is exactly having an accepted
extension and a size of at most `maxSizeMb` megabytes. -/
theorem validateFile_eq_none_iff (cfg : MultiUploadZone.Config) (f : JsFile) :
    MultiUploadZone.validateFile cfg f = none ↔
      cfg.acceptedFormats.contains (MultiUploadZone.fileExt f.name) = true ∧
      (f.size : ℚ) ≤ cfg.maxSizeMb * (1024 * 1024) := by
  unfold MultiUploadZone.validateFile
  split_ifs with h1 h2
  · constructor
    · intro hc
      exact absurd hc (by simp)
    · rintro ⟨hc, -⟩
      rw [h1] at hc
      exact Bool.noConfusion hc
  · constructor
    · intro hc
      exact absurd hc (by simp)
    · rintro ⟨-, hle⟩
      rw [gt_iff_lt, ← not_le,
        div_le_iff₀ (by norm_num : (0 : ℚ) < 1024 * 1024)] at h2
      exact h2 hle
  · simp only [Bool.not_eq_false] at h1
    rw [gt_iff_lt, not_lt,
      div_le_iff₀ (by norm_num : (0 : ℚ) < 1024 * 1024)] at h2
    exact iff_of_true rfl ⟨h1, h2⟩

/-- Helper for C9: the early-returning validation loop passes exactly when
every file passes. -/
theorem firstValidationError_eq_none_iff (cfg : MultiUploadZone.Config) :
    ∀ files : List JsFile,
      MultiUploadZone.firstValidationError cfg files = none ↔
        ∀ f ∈ files, MultiUploadZone.validateFile cfg f = none := by
  intro files
  induction files with
  | nil => simp [MultiUploadZone.firstValidationError]
  | cons f fs ih =>
    unfold MultiUploadZone.firstValidationError
    cases h : MultiUploadZone.validateFile cfg f with
    | some e => simp [h]
    | none => simp [h, ih]

/-- C9: `MultiUploadZone.handleFiles` invokes the `onFilesSelect` callback
iff the submitted list has at most `maxFiles` entries and every file has an
accepted extension and size at most `maxSizeMb` megabytes; on any
validation failure it records an error message, does not invoke the
callback, and the previously selected files remain unchanged. -/
theorem handleFiles_gate (cfg : MultiUploadZone.Config)
    (st : MultiUploadZone.State) (files : List JsFile) :
    ((MultiUploadZone.handleFiles cfg st files).2 = true ↔
      files.length ≤ cfg.maxFiles ∧
      ∀ f ∈ files,
        cfg.acceptedFormats.contains (MultiUploadZone.fileExt f.name) = true ∧
        (f.size : ℚ) ≤ cfg.maxSizeMb * (1024 * 1024)) ∧
    ((MultiUploadZone.handleFiles cfg st files).2 = false →
      (MultiUploadZone.handleFiles cfg st files).1.selectedFiles =
        st.selectedFiles ∧
      (MultiUploadZone.handleFiles cfg st files).1.error.isSome = true) := by
  unfold MultiUploadZone.handleFiles
  split_ifs with hlen
  · constructor
    · simp only [reduceCtorEq, false_iff, not_and]
      intro hle
      exact absurd hle (not_le.mpr hlen)
    · intro _
      exact ⟨rfl, rfl⟩
  · cases h : MultiUploadZone.firstValidationError cfg files with
    | some e =>
      constructor
      · simp only [reduceCtorEq, false_iff, not_and]
        intro _ hall
        have hnone : MultiUploadZone.firstValidationError cfg files = none :=
          (firstValidationError_eq_none_iff cfg files).mpr fun f hf =>
            (validateFile_eq_none_iff cfg f).mpr (hall f hf)
        rw [h] at hnone
        exact Option.noConfusion hnone
      · intro _
        exact ⟨rfl, rfl⟩
    | none =>
      constructor
      · simp only [true_iff]
        refine ⟨not_lt.mp hlen, fun f hf => ?_⟩
        exact (validateFile_eq_none_iff cfg f).mp
          ((firstValidationError_eq_none_iff cfg files).mp h f hf)
      · intro hfalse
        exact Bool.noConfusion hfalse

/-- C9 witness: submitting six files against the default five-file cap does
not invoke the callback, records an error, and leaves the previously
selected files unchanged. -/
theorem handleFiles_gate_witness :
    (MultiUploadZone.handleFiles MultiUploadZone.defaultConfig
        { error := none, selectedFiles := [] }
        [⟨"a.pdf", 10⟩, ⟨"b.pdf", 10⟩, ⟨"c.pdf", 10⟩, ⟨"d.pdf", 10⟩,
         ⟨"e.pdf", 10⟩, ⟨"f.pdf", 10⟩]).1.selectedFiles =
      ({ error := none, selectedFiles := [] } :
        MultiUploadZone.State).selectedFiles ∧
    (MultiUploadZone.handleFiles MultiUploadZone.defaultConfig
        { error := none, selectedFiles := [] }
        [⟨"a.pdf", 10⟩, ⟨"b.pdf", 10⟩, ⟨"c.pdf", 10⟩, ⟨"d.pdf", 10⟩,
         ⟨"e.pdf", 10⟩, ⟨"f.pdf", 10⟩]).1.error.isSome = true :=
  (handleFiles_gate MultiUploadZone.defaultConfig
    { error := none, selectedFiles := [] }
    [⟨"a.pdf", 10⟩, ⟨"b.pdf", 10⟩, ⟨"c.pdf", 10⟩, ⟨"d.pdf", 10⟩,
     ⟨"e.pdf", 10⟩, ⟨"f.pdf", 10⟩]).2 rfl

/-- C1: for every `RankingResult` produced by `rank`, the `rankings` list
is sorted by the deterministic order — non-increasing `overall_score`,
ties broken by `fit_score` descending, then `ats_score` descending, then
`file_name` ascending — and that order is total, with two entries mutually
before-or-equal exactly when all four ordering keys coincide. -/
theorem rank_rankings_sorted_deterministic
    (job_title company_name : Option String)
    (analyses : List (String × FullCandidateAnalysis)) :
    List.Sorted RankingEngine.rankRel
      ((RankingEngine.rank job_title company_name analyses).rankings) ∧
    (∀ a b : CandidateRankingScore,
      RankingEngine.rankRel a b ∨ RankingEngine.rankRel b a) ∧
    (∀ a b : CandidateRankingScore,
      (RankingEngine.rankRel a b ∧ RankingEngine.rankRel b a) ↔
        (a.overall_score = b.overall_score ∧ a.fit_score = b.fit_score ∧
         a.ats_score = b.ats_score ∧ a.file_name = b.file_name)) := by
  refine ⟨?_, ?_, ?_⟩
  · exact RankingEngine.pairwise_assignRanks 1
      (List.sorted_insertionSort RankingEngine.rankRel _)
  · intro a b
    exact total_of RankingEngine.rankRel a b
  · intro a b
    rw [RankingEngine.rankRel_iff_rankKey_le,
      RankingEngine.rankRel_iff_rankKey_le]
    constructor
    · rintro ⟨h1, h2⟩
      have h := le_antisymm h1 h2
      simp only [RankingEngine.rankKey, toLex_inj, Prod.mk.injEq, neg_inj]
        at h
      exact ⟨h.1, h.2.1, h.2.2.1, h.2.2.2⟩
    · rintro ⟨h1, h2, h3, h4⟩
      have hk : RankingEngine.rankKey a = RankingEngine.rankKey b := by
        unfold RankingEngine.rankKey
        rw [h1, h2, h3, h4]
      exact ⟨le_of_eq hk, le_of_eq hk.symm⟩

/-- C4: for every batch passed to `rank`, the result has `success = true`
even when some candidates fail, `all_analyses` keeps exactly one entry per
input file (failed candidates included, keyed by file name),
`total_candidates` counts every input, and `rankings` has exactly one entry
per successful analysis and nothing else. -/
theorem rank_batch_shape (job_title company_name : Option String)
    (analyses : List (String × FullCandidateAnalysis)) :
    (RankingEngine.rank job_title company_name analyses).success = true ∧
    (RankingEngine.rank job_title company_name analyses).all_analyses =
      analyses ∧
    (RankingEngine.rank job_title company_name analyses).total_candidates =
      analyses.length ∧
    (RankingEngine.rank job_title company_name analyses).rankings.length =
      (analyses.filter (fun p => p.2.success)).length ∧
    (∀ c ∈ (RankingEngine.rank job_title company_name analyses).rankings,
      ∃ p ∈ analyses, p.2.success = true ∧ c.file_name = p.1) := by
  refine ⟨rfl, rfl, rfl, ?_, ?_⟩
  · show (RankingEngine.assignRanks 1
        (List.insertionSort RankingEngine.rankRel
          ((analyses.filter (fun p => p.2.success)).map
            (fun p => RankingEngine.toRankingScore p.1 p.2)))).length = _
    rw [RankingEngine.assignRanks_length,
      (List.perm_insertionSort RankingEngine.rankRel _).length_eq,
      List.length_map]
  · intro c hc
    have hc' : c ∈ RankingEngine.assignRanks 1
        (List.insertionSort RankingEngine.rankRel
          ((analyses.filter (fun p => p.2.success)).map
            (fun p => RankingEngine.toRankingScore p.1 p.2))) := hc
    obtain ⟨d, hd, m, hm⟩ := RankingEngine.mem_assignRanks hc'
    have hd' : d ∈ (analyses.filter (fun p => p.2.success)).map
        (fun p => RankingEngine.toRankingScore p.1 p.2) :=
      (List.perm_insertionSort RankingEngine.rankRel _).subset hd
    obtain ⟨p, hp, hdp⟩ := List.mem_map.mp hd'
    obtain ⟨hpa, hps⟩ := List.mem_filter.mp hp
    exact ⟨p, hpa, hps, by rw [hm, ← hdp]; rfl⟩

/-- C4 witness: the batch shape evaluated on a concrete two-candidate batch
with one failed analysis. -/
theorem rank_batch_shape_witness :
    (RankingEngine.rank none none
      [("ok.pdf", sampleSuccessAnalysis),
       ("bad.pdf", sampleFailedAnalysis)]).success = true ∧
    (RankingEngine.rank none none
      [("ok.pdf", sampleSuccessAnalysis),
       ("bad.pdf", sampleFailedAnalysis)]).all_analyses =
      [("ok.pdf", sampleSuccessAnalysis), ("bad.pdf", sampleFailedAnalysis)] ∧
    (RankingEngine.rank none none
      [("ok.pdf", sampleSuccessAnalysis),
       ("bad.pdf", sampleFailedAnalysis)]).total_candidates =
      [("ok.pdf", sampleSuccessAnalysis),
       ("bad.pdf", sampleFailedAnalysis)].length ∧
    (RankingEngine.rank none none
      [("ok.pdf", sampleSuccessAnalysis),
       ("bad.pdf", sampleFailedAnalysis)]).rankings.length =
      ([("ok.pdf", sampleSuccessAnalysis),
        ("bad.pdf", sampleFailedAnalysis)].filter
        (fun p => p.2.success)).length ∧
    (∀ c ∈ (RankingEngine.rank none none
        [("ok.pdf", sampleSuccessAnalysis),
         ("bad.pdf", sampleFailedAnalysis)]).rankings,
      ∃ p ∈ [("ok.pdf", sampleSuccessAnalysis),
             ("bad.pdf", sampleFailedAnalysis)],
        p.2.success = true ∧ c.file_name = p.1) :=
  rank_batch_shape none none
    [("ok.pdf", sampleSuccessAnalysis), ("bad.pdf", sampleFailedAnalysis)]

/-- C5: for every pair of successful analyses, `compare` succeeds and the
winner is the candidate with the higher `overall_score`; on an exact tie
the candidate with fewer red flags wins; on a further tie the winner is
candidate 1 with the tie-break reason; the winner is always 1 or 2. -/
theorem compare_winner_rule (fn1 fn2 : String)
    (a1 a2 : FullCandidateAnalysis)
    (h1 : a1.success = true) (h2 : a2.success = true) :
    ∃ c : CandidateComparison,
      ComparisonEngine.compareCandidates fn1 fn2 a1 a2 = Except.ok c ∧
      (c.winner = 1 ∨ c.winner = 2) ∧
      (a2.overall_score < a1.overall_score → c.winner = 1) ∧
      (a1.overall_score < a2.overall_score → c.winner = 2) ∧
      (a1.overall_score = a2.overall_score →
        ComparisonEngine.redFlagsCountOf a1 <
          ComparisonEngine.redFlagsCountOf a2 → c.winner = 1) ∧
      (a1.overall_score = a2.overall_score →
        ComparisonEngine.redFlagsCountOf a2 <
          ComparisonEngine.redFlagsCountOf a1 → c.winner = 2) ∧
      (a1.overall_score = a2.overall_score →
        ComparisonEngine.redFlagsCountOf a1 =
          ComparisonEngine.redFlagsCountOf a2 →
        c.winner = 1 ∧ c.winner_reason = "tie-break: first candidate") := by
  unfold ComparisonEngine.compareCandidates
  rw [h1, h2]
  simp only [reduceCtorEq, or_self, if_false]
  split_ifs with ha hb hc hd
  · refine ⟨_, rfl, Or.inl rfl, fun _ => rfl, fun hlt => absurd hlt (by
      simp only [not_lt]; linarith), fun he _ => rfl, fun he _ => by
      exfalso; linarith, fun he _ => by exfalso; linarith⟩
  · refine ⟨_, rfl, Or.inr rfl, fun hgt => by exfalso; linarith,
      fun _ => rfl, fun he _ => by exfalso; linarith,
      fun he _ => rfl, fun he _ => by exfalso; linarith⟩
  · refine ⟨_, rfl, Or.inl rfl, fun hgt => rfl, fun hlt => by
      exfalso; linarith, fun _ _ => rfl, fun _ hlt => by omega,
      fun _ heq => by omega⟩
  · refine ⟨_, rfl, Or.inr rfl, fun hgt => by exfalso; linarith,
      fun hlt => rfl, fun _ hlt => by omega, fun _ _ => rfl,
      fun _ heq => by omega⟩
  · refine ⟨_, rfl, Or.inl rfl, fun hgt => rfl, fun hlt => by
      exfalso; linarith, fun _ _ => rfl, fun _ hlt => by omega,
      fun _ _ => ⟨rfl, rfl⟩⟩

/-- C5 witness: comparing two identical successful analyses ends in the
full tie-break, applying the winner rule at a concrete input. -/
theorem compare_winner_rule_witness :
    ∃ c : CandidateComparison,
      ComparisonEngine.compareCandidates "a.pdf" "b.pdf"
        sampleSuccessAnalysis sampleSuccessAnalysis = Except.ok c ∧
      (c.winner = 1 ∨ c.winner = 2) ∧
      (sampleSuccessAnalysis.overall_score <
          sampleSuccessAnalysis.overall_score → c.winner = 1) ∧
      (sampleSuccessAnalysis.overall_score <
          sampleSuccessAnalysis.overall_score → c.winner = 2) ∧
      (sampleSuccessAnalysis.overall_score =
          sampleSuccessAnalysis.overall_score →
        ComparisonEngine.redFlagsCountOf sampleSuccessAnalysis <
          ComparisonEngine.redFlagsCountOf sampleSuccessAnalysis →
        c.winner = 1) ∧
      (sampleSuccessAnalysis.overall_score =
          sampleSuccessAnalysis.overall_score →
        ComparisonEngine.redFlagsCountOf sampleSuccessAnalysis <
          ComparisonEngine.redFlagsCountOf sampleSuccessAnalysis →
        c.winner = 2) ∧
      (sampleSuccessAnalysis.overall_score =
          sampleSuccessAnalysis.overall_score →
        ComparisonEngine.redFlagsCountOf sampleSuccessAnalysis =
          ComparisonEngine.redFlagsCountOf sampleSuccessAnalysis →
        c.winner = 1 ∧ c.winner_reason = "tie-break: first candidate") :=
  compare_winner_rule "a.pdf" "b.pdf"
    sampleSuccessAnalysis sampleSuccessAnalysis rfl rfl
